import Mathlib

/-!
# restic `internal/fs/file.go`: the path-normalizing OS facade

A shallow embedding of the functions of `internal/fs/file.go`.

* Go's `error` values are observed through `Error()` and `Unwrap()`; a nilable
  `error` is an `Option GoError`.
* The `os` package and the `FS`/`File` interfaces are effectful collaborators.
  They are records of state transformers over an arbitrary world state `σ`.
* Which calls a function makes is observed by running it against a recording
  wrapper of the collaborator (`OS.traced`, `FS.traced`), the analogue of a
  recording test double.
-/

namespace Restic

/-! ## Go values -/

/-- A Go `error` value, observed through its message and its cause.
`errorString` is an error without a cause, `wrapError` is the value built by
`fmt.Errorf` with a `%w` verb (message plus wrapped error); any other error
type with an `Unwrap` method is observed the same way. -/
inductive GoError where
  | errorString (s : String) : GoError
  | wrapError (msg : String) (err : GoError) : GoError
deriving DecidableEq, Repr

/-- The method `Error() string`. -/
def GoError.Error : GoError → String
  | .errorString s => s
  | .wrapError msg _ => msg

/-- The method `Unwrap() error`, as seen by `errors.Unwrap`: `none` is `nil`. -/
def GoError.Unwrap : GoError → Option GoError
  | .errorString _ => none
  | .wrapError _ err => some err

/-- The type `os.FileMode` (a `uint32`); the facade only passes it through. -/
abbrev FileMode := Nat

/-- A Go `[]string`: `none` is the nil slice. -/
abbrev StringSlice := Option (List String)

/-- An operand of a formatting verb. -/
inductive FmtArg where
  | string (s : String) : FmtArg
  | error (e : GoError) : FmtArg

/-- How `%v` and `%w` print an operand: a string verbatim, an error through
its `Error()` method. -/
def FmtArg.format : FmtArg → String
  | .string s => s
  | .error e => e.Error

/-- The text produced by a format string, for the verbs `%v` and `%w` with an
operand present; all other characters are copied. -/
def sprintfChars : List Char → List FmtArg → List Char
  | [], _ => []
  | [c], _ => [c]
  | c :: d :: cs, args =>
    if c = '%' ∧ (d = 'v' ∨ d = 'w') then
      match args with
      | a :: rest => a.format.data ++ sprintfChars cs rest
      | [] => c :: d :: sprintfChars cs []
    else c :: sprintfChars (d :: cs) args

/-- The operand of the first `%w` verb of a format string, if any. -/
def wrappedOperand : List Char → List FmtArg → Option GoError
  | [], _ => none
  | [_], _ => none
  | c :: d :: cs, args =>
    if c = '%' ∧ (d = 'v' ∨ d = 'w') then
      match args with
      | a :: rest =>
        if d = 'w' then
          match a with
          | .error e => some e
          | .string _ => wrappedOperand cs rest
        else wrappedOperand cs rest
      | [] => none
    else wrappedOperand (d :: cs) args

/-- The function `fmt.Errorf`: with a `%w` verb whose operand is an error the
result wraps that error, otherwise it is a plain error of the formatted text. -/
def Errorf (format : String) (args : List FmtArg) : GoError :=
  let msg := String.mk (sprintfChars format.data args)
  match wrappedOperand format.data args with
  | some e => .wrapError msg e
  | none => .errorString msg

/-! ## The `os` package -/

/-- The primitives of package `os` that the facade calls, over a world state
`σ`. `FileInfo` is `os.FileInfo`, `F` is the file handle type. -/
structure OS (σ FileInfo F : Type) where
  Mkdir : String → FileMode → σ → Option GoError × σ
  MkdirAll : String → FileMode → σ → Option GoError × σ
  Readlink : String → σ → (String × Option GoError) × σ
  Remove : String → σ → Option GoError × σ
  RemoveAll : String → σ → Option GoError × σ
  Rename : String → String → σ → Option GoError × σ
  Symlink : String → String → σ → Option GoError × σ
  Link : String → String → σ → Option GoError × σ
  Lstat : String → σ → (FileInfo × Option GoError) × σ
  Open : String → σ → (F × Option GoError) × σ
  OpenFile : String → Int → FileMode → σ → (F × Option GoError) × σ
  IsPermission : Option GoError → Bool
  Chmod : String → FileMode → σ → Option GoError × σ

/-- One call of an `os` primitive with the arguments it received. -/
inductive OSCall where
  | Mkdir (name : String) (perm : FileMode) : OSCall
  | MkdirAll (path : String) (perm : FileMode) : OSCall
  | Readlink (name : String) : OSCall
  | Remove (name : String) : OSCall
  | RemoveAll (path : String) : OSCall
  | Rename (oldpath newpath : String) : OSCall
  | Symlink (oldname newname : String) : OSCall
  | Link (oldname newname : String) : OSCall
  | Lstat (name : String) : OSCall
  | Open (name : String) : OSCall
  | OpenFile (name : String) (flag : Int) (perm : FileMode) : OSCall
  | Chmod (name : String) (mode : FileMode) : OSCall
deriving DecidableEq, Repr

/-- Runs a state transformer on the first component and appends a call to the
log in the second. -/
def logged {σ C α : Type} (c : C) (k : σ → α × σ) (st : σ × List C) : α × (σ × List C) :=
  ((k st.1).1, ((k st.1).2, st.2 ++ [c]))

/-- The same `os`, with every call of a primitive appended to a log. -/
def OS.traced {σ FileInfo F : Type} (os : OS σ FileInfo F) : OS (σ × List OSCall) FileInfo F where
  Mkdir name perm := logged (.Mkdir name perm) (os.Mkdir name perm)
  MkdirAll path perm := logged (.MkdirAll path perm) (os.MkdirAll path perm)
  Readlink name := logged (.Readlink name) (os.Readlink name)
  Remove name := logged (.Remove name) (os.Remove name)
  RemoveAll path := logged (.RemoveAll path) (os.RemoveAll path)
  Rename oldpath newpath := logged (.Rename oldpath newpath) (os.Rename oldpath newpath)
  Symlink oldname newname := logged (.Symlink oldname newname) (os.Symlink oldname newname)
  Link oldname newname := logged (.Link oldname newname) (os.Link oldname newname)
  Lstat name := logged (.Lstat name) (os.Lstat name)
  Open name := logged (.Open name) (os.Open name)
  OpenFile name flag perm := logged (.OpenFile name flag perm) (os.OpenFile name flag perm)
  IsPermission := os.IsPermission
  Chmod name mode := logged (.Chmod name mode) (os.Chmod name mode)

/-! ## The facade

`fixpath` is defined per platform in another file of the package; it is a
parameter here. -/

section Facade

variable {σ FileInfo F : Type}

/-- Source: `func Mkdir(name string, perm os.FileMode) error` -/
def Mkdir (os : OS σ FileInfo F) (fixpath : String → String) (name : String) (perm : FileMode)
    (s : σ) : Option GoError × σ :=
  os.Mkdir (fixpath name) perm s

/-- Source: `func MkdirAll(path string, perm os.FileMode) error` -/
def MkdirAll (os : OS σ FileInfo F) (fixpath : String → String) (path : String) (perm : FileMode)
    (s : σ) : Option GoError × σ :=
  os.MkdirAll (fixpath path) perm s

/-- Source: `func Readlink(name string) (string, error)` -/
def Readlink (os : OS σ FileInfo F) (fixpath : String → String) (name : String)
    (s : σ) : (String × Option GoError) × σ :=
  os.Readlink (fixpath name) s

/-- Source: `func Remove(name string) error` -/
def Remove (os : OS σ FileInfo F) (fixpath : String → String) (name : String)
    (s : σ) : Option GoError × σ :=
  os.Remove (fixpath name) s

/-- Source: `func RemoveAll(path string) error` -/
def RemoveAll (os : OS σ FileInfo F) (fixpath : String → String) (path : String)
    (s : σ) : Option GoError × σ :=
  os.RemoveAll (fixpath path) s

/-- Source: `func Rename(oldpath, newpath string) error` -/
def Rename (os : OS σ FileInfo F) (fixpath : String → String) (oldpath newpath : String)
    (s : σ) : Option GoError × σ :=
  os.Rename (fixpath oldpath) (fixpath newpath) s

/-- Source: `func Symlink(oldname, newname string) error` -/
def Symlink (os : OS σ FileInfo F) (fixpath : String → String) (oldname newname : String)
    (s : σ) : Option GoError × σ :=
  os.Symlink oldname (fixpath newname) s

/-- Source: `func Link(oldname, newname string) error` -/
def Link (os : OS σ FileInfo F) (fixpath : String → String) (oldname newname : String)
    (s : σ) : Option GoError × σ :=
  os.Link (fixpath oldname) (fixpath newname) s

/-- Source: `func Lstat(name string) (os.FileInfo, error)` -/
def Lstat (os : OS σ FileInfo F) (fixpath : String → String) (name : String)
    (s : σ) : (FileInfo × Option GoError) × σ :=
  os.Lstat (fixpath name) s

/-- Source: `func Open(name string) (File, error)` -/
def Open (os : OS σ FileInfo F) (fixpath : String → String) (name : String)
    (s : σ) : (F × Option GoError) × σ :=
  os.Open (fixpath name) s

/-- Source: `func OpenFile(name string, flag int, perm os.FileMode) (*os.File, error)` -/
def OpenFile (os : OS σ FileInfo F) (fixpath : String → String) (name : String) (flag : Int)
    (perm : FileMode) (s : σ) : (F × Option GoError) × σ :=
  os.OpenFile (fixpath name) flag perm s

/-- Source: `func IsAccessDenied(err error) bool` -/
def IsAccessDenied (os : OS σ FileInfo F) (err : Option GoError) : Bool :=
  os.IsPermission err

/-- Source: `func ResetPermissions(path string) error` -/
def ResetPermissions (os : OS σ FileInfo F) (fixpath : String → String) (path : String)
    (s : σ) : Option GoError × σ :=
  match os.Chmod (fixpath path) 0o600 s with
  | (some err, s1) => (some err, s1)
  | (none, s1) => (none, s1)

end Facade

/-! ## `Readdirnames` and the `FS` capability -/

/-- The interfaces `FS` and `File`, restricted to the methods `Readdirnames`
uses. `F` is the type of `File` values; the methods of `File` take the handle
they are called on as their first argument. -/
structure FS (σ F : Type) where
  OpenFile : String → Int → FileMode → σ → (F × Option GoError) × σ
  Readdirnames : F → Int → σ → (StringSlice × Option GoError) × σ
  Close : F → σ → Option GoError × σ

/-- One call of a method of `FS` or `File` with the arguments it received. -/
inductive FSCall (F : Type) where
  | OpenFile (name : String) (flag : Int) (perm : FileMode) : FSCall F
  | Readdirnames (f : F) (n : Int) : FSCall F
  | Close (f : F) : FSCall F
deriving DecidableEq, Repr

/-- The same capability, with every method call appended to a log. -/
def FS.traced {σ F : Type} (fs : FS σ F) : FS (σ × List (FSCall F)) F where
  OpenFile name flag perm := logged (.OpenFile name flag perm) (fs.OpenFile name flag perm)
  Readdirnames f n := logged (.Readdirnames f n) (fs.Readdirnames f n)
  Close f := logged (.Close f) (fs.Close f)

/-- Source: `func Readdirnames(filesystem FS, dir string, flags int) ([]string, error)`.
The constant `O_RDONLY` is declared in another file of the package and is a
parameter here. -/
def Readdirnames {σ F : Type} (O_RDONLY : Int) (filesystem : FS σ F) (dir : String) (flags : Int)
    (s : σ) : (StringSlice × Option GoError) × σ :=
  match filesystem.OpenFile dir (Int.lor O_RDONLY flags) 0 s with
  | ((_, some err), s1) =>
    ((none, some (Errorf "openfile for readdirnames failed: %w" [.error err])), s1)
  | ((f, none), s1) =>
    match filesystem.Readdirnames f (-1) s1 with
    | ((_, some err), s2) =>
      match filesystem.Close f s2 with
      | (_, s3) =>
        ((none, some (Errorf "readdirnames %v failed: %w" [.string dir, .error err])), s3)
    | ((entries, none), s2) =>
      match filesystem.Close f s2 with
      | (some err, s3) => ((none, some err), s3)
      | (none, s3) => ((entries, none), s3)

/-! ## Concrete collaborators used to exercise the model -/

/-- What a scripted capability answers to each call. -/
structure Script where
  openErr : Option GoError
  entries : StringSlice
  readErr : Option GoError
  closeErr : Option GoError

/-- A capability that answers by a script. Its state is the number of handles
that are open; the handle it hands out is `3`. -/
def scriptedFS (sc : Script) : FS Nat Nat where
  OpenFile _ _ _ s :=
    match sc.openErr with
    | some e => ((0, some e), s)
    | none => ((3, none), s + 1)
  Readdirnames _ _ s := ((sc.entries, sc.readErr), s)
  Close _ s := (sc.closeErr, s - 1)

/-- A script: the open fails. -/
def openFails : Script :=
  { openErr := some (.errorString "permission denied"), entries := none, readErr := none,
    closeErr := none }

/-- A script: the read returns one name and then fails. -/
def readFails : Script :=
  { openErr := none, entries := some ["a"], readErr := some (.errorString "input/output error"),
    closeErr := some (.errorString "bad file descriptor") }

/-- A script: the read lists three names and the close fails. -/
def closeFails : Script :=
  { openErr := none, entries := some ["a", "b", "c"], readErr := none,
    closeErr := some (.errorString "bad file descriptor") }

/-- A script: a directory holding `a`, `b` and `c`, and no failure. -/
def allSucceed : Script :=
  { openErr := none, entries := some ["a", "b", "c"], readErr := none, closeErr := none }

/-- An `os` on which every primitive succeeds and nothing is ever denied. -/
def quietOS : OS Unit Unit Nat where
  Mkdir _ _ s := (none, s)
  MkdirAll _ _ s := (none, s)
  Readlink _ s := (("", none), s)
  Remove _ s := (none, s)
  RemoveAll _ s := (none, s)
  Rename _ _ s := (none, s)
  Symlink _ _ s := (none, s)
  Link _ _ s := (none, s)
  Lstat _ s := (((), none), s)
  Open _ s := ((3, none), s)
  OpenFile _ _ _ s := ((3, none), s)
  IsPermission _ := false
  Chmod _ _ s := (none, s)

/-- An `os` on which `Chmod` is refused and everything else succeeds. -/
def refusingOS : OS Unit Unit Nat :=
  { quietOS with Chmod := fun _ _ s => (some (.errorString "operation not permitted"), s) }

/-- A normalization that is not the identity: it makes a path absolute. -/
def rootedPath (p : String) : String := "/" ++ p

/-- Selects the `OpenFile` calls of a log. -/
def FSCall.isOpenFile {F : Type} : FSCall F → Bool
  | .OpenFile _ _ _ => true
  | _ => false

/-- Selects the `Readdirnames` calls of a log. -/
def FSCall.isReaddirnames {F : Type} : FSCall F → Bool
  | .Readdirnames _ _ => true
  | _ => false

/-- Selects the `Close` calls of a log. -/
def FSCall.isClose {F : Type} : FSCall F → Bool
  | .Close _ => true
  | _ => false

/-! ## Lemmas on formatting and on the recording wrapper -/

theorem Errorf_openfile (e : GoError) :
    Errorf "openfile for readdirnames failed: %w" [.error e]
      = .wrapError ("openfile for readdirnames failed: " ++ e.Error) e := by
  simp [Errorf, sprintfChars, wrappedOperand, FmtArg.format]
  rfl

theorem Errorf_readdirnames (dir : String) (e : GoError) :
    Errorf "readdirnames %v failed: %w" [.string dir, .error e]
      = .wrapError ("readdirnames " ++ dir ++ " failed: " ++ e.Error) e := by
  simp [Errorf, sprintfChars, wrappedOperand, FmtArg.format]
  apply String.ext
  simp

theorem open_message_ne_read_message (a dir b : String) :
    "openfile for readdirnames failed: " ++ a ≠ "readdirnames " ++ dir ++ " failed: " ++ b := by
  intro h
  have h2 := congrArg String.data h
  simp at h2

/-- Running against the recording wrapper gives the same results and the same
final world state as running against the capability itself. -/
theorem Readdirnames_traced_faithful {σ F : Type} (O_RDONLY : Int) (filesystem : FS σ F)
    (dir : String) (flags : Int) (s : σ) (log : List (FSCall F)) :
    (Readdirnames O_RDONLY filesystem.traced dir flags (s, log)).1
        = (Readdirnames O_RDONLY filesystem dir flags s).1
      ∧ (Readdirnames O_RDONLY filesystem.traced dir flags (s, log)).2.1
        = (Readdirnames O_RDONLY filesystem dir flags s).2 := by
  simp only [Readdirnames, FS.traced, logged]
  rcases ho : filesystem.OpenFile dir (Int.lor O_RDONLY flags) 0 s with ⟨⟨f, _ | e⟩, s1⟩
  · rcases hr : filesystem.Readdirnames f (-1) s1 with ⟨⟨ents, _ | r⟩, s2⟩
    · rcases hc : filesystem.Close f s2 with ⟨_ | c, s3⟩ <;> simp [ho, hr, hc]
    · rcases hc : filesystem.Close f s2 with ⟨c, s3⟩
      simp [ho, hr, hc]
  · simp [ho]

/-- The log of a run, by the outcome of `OpenFile`. -/
theorem Readdirnames_log {σ F : Type} (O_RDONLY : Int) (filesystem : FS σ F)
    (dir : String) (flags : Int) (s : σ) (log : List (FSCall F)) :
    (Readdirnames O_RDONLY filesystem.traced dir flags (s, log)).2.2
      = match (filesystem.OpenFile dir (Int.lor O_RDONLY flags) 0 s).1 with
        | (_, some _) => log ++ [.OpenFile dir (Int.lor O_RDONLY flags) 0]
        | (f, none) =>
          log ++ [.OpenFile dir (Int.lor O_RDONLY flags) 0, .Readdirnames f (-1), .Close f] := by
  simp only [Readdirnames, FS.traced, logged]
  rcases ho : filesystem.OpenFile dir (Int.lor O_RDONLY flags) 0 s with ⟨⟨f, _ | e⟩, s1⟩
  · rcases hr : filesystem.Readdirnames f (-1) s1 with ⟨⟨ents, _ | r⟩, s2⟩
    · rcases hc : filesystem.Close f s2 with ⟨_ | c, s3⟩ <;> simp [ho, hr, hc]
    · rcases hc : filesystem.Close f s2 with ⟨c, s3⟩
      simp [ho, hr, hc]
  · simp [ho]

/-! ## `Readdirnames`: the claims -/

/-- C1: if `filesystem.OpenFile` returns an error `e`, `Readdirnames` returns
the nil slice and an error whose message is
"openfile for readdirnames failed: " followed by the message of `e` and whose
cause is `e`; that message differs from the message of every error the
read-failure branch builds, which starts with "readdirnames ". -/
theorem Readdirnames_open_failure {σ F : Type} (O_RDONLY : Int) (filesystem : FS σ F)
    (dir : String) (flags : Int) (s : σ) (f : F) (e : GoError) (s1 : σ)
    (hopen : filesystem.OpenFile dir (Int.lor O_RDONLY flags) 0 s = ((f, some e), s1)) :
    ∃ err : GoError,
      (Readdirnames O_RDONLY filesystem dir flags s).1 = (none, some err)
      ∧ err.Error = "openfile for readdirnames failed: " ++ e.Error
      ∧ err.Unwrap = some e
      ∧ ∀ (dir1 : String) (r : GoError),
          (Errorf "readdirnames %v failed: %w" [.string dir1, .error r]).Error
              = "readdirnames " ++ (dir1 ++ (" failed: " ++ r.Error))
            ∧ err.Error ≠ (Errorf "readdirnames %v failed: %w" [.string dir1, .error r]).Error := by
  refine ⟨.wrapError ("openfile for readdirnames failed: " ++ e.Error) e, ?_, rfl, rfl, ?_⟩
  · simp only [Readdirnames, hopen, Errorf_openfile]
  · intro dir1 r
    rw [Errorf_readdirnames]
    refine ⟨by simp [GoError.Error, String.append_assoc], ?_⟩
    exact open_message_ne_read_message _ _ _

/-- C2: if `OpenFile` succeeds and the read on the handle returns an error `r`,
`Readdirnames` returns the nil slice and an error whose message is
"readdirnames <dir> failed: " followed by the message of `r` and whose cause is
`r`, whatever `Close` on the handle does. -/
theorem Readdirnames_read_failure {σ F : Type} (O_RDONLY : Int) (filesystem : FS σ F)
    (dir : String) (flags : Int) (s : σ) (f : F) (s1 : σ) (entries : StringSlice) (r : GoError)
    (s2 : σ) (close : F → σ → Option GoError × σ)
    (hopen : filesystem.OpenFile dir (Int.lor O_RDONLY flags) 0 s = ((f, none), s1))
    (hread : filesystem.Readdirnames f (-1) s1 = ((entries, some r), s2)) :
    ∃ err : GoError,
      (Readdirnames O_RDONLY { filesystem with Close := close } dir flags s).1 = (none, some err)
      ∧ (Readdirnames O_RDONLY filesystem dir flags s).1 = (none, some err)
      ∧ err.Error = "readdirnames " ++ dir ++ " failed: " ++ r.Error
      ∧ err.Unwrap = some r := by
  refine ⟨.wrapError ("readdirnames " ++ dir ++ " failed: " ++ r.Error) r, ?_, ?_, rfl, rfl⟩
  · simp only [Readdirnames, hopen, hread, Errorf_readdirnames]
  · simp only [Readdirnames, hopen, hread, Errorf_readdirnames]

/-- C3: if `OpenFile` and the read on the handle succeed and `Close` returns an
error `c`, `Readdirnames` returns the nil slice and `c` itself. -/
theorem Readdirnames_close_failure {σ F : Type} (O_RDONLY : Int) (filesystem : FS σ F)
    (dir : String) (flags : Int) (s : σ) (f : F) (s1 : σ) (entries : StringSlice) (s2 : σ)
    (c : GoError) (s3 : σ)
    (hopen : filesystem.OpenFile dir (Int.lor O_RDONLY flags) 0 s = ((f, none), s1))
    (hread : filesystem.Readdirnames f (-1) s1 = ((entries, none), s2))
    (hclose : filesystem.Close f s2 = (some c, s3)) :
    (Readdirnames O_RDONLY filesystem dir flags s).1 = (none, some c) := by
  simp only [Readdirnames, hopen, hread, hclose]

/-- C4: if `OpenFile`, the read on the handle and `Close` all succeed,
`Readdirnames` returns a nil error and the slice the handle returned, and that
slice comes from the only `Readdirnames` call made, which is on the handle
with count -1. -/
theorem Readdirnames_success {σ F : Type} (O_RDONLY : Int) (filesystem : FS σ F)
    (dir : String) (flags : Int) (s : σ) (f : F) (s1 : σ) (entries : StringSlice) (s2 s3 : σ)
    (hopen : filesystem.OpenFile dir (Int.lor O_RDONLY flags) 0 s = ((f, none), s1))
    (hread : filesystem.Readdirnames f (-1) s1 = ((entries, none), s2))
    (hclose : filesystem.Close f s2 = (none, s3)) :
    (Readdirnames O_RDONLY filesystem dir flags s).1 = (entries, none)
      ∧ ((Readdirnames O_RDONLY filesystem.traced dir flags (s, [])).2.2.filter
          FSCall.isReaddirnames) = [.Readdirnames f (-1)] := by
  constructor
  · simp only [Readdirnames, hopen, hread, hclose]
  · rw [Readdirnames_log, hopen]
    simp [FSCall.isReaddirnames]

/-- C5: in every run `OpenFile` is called exactly once. If it succeeds, the
calls are `OpenFile`, then `Readdirnames` on the returned handle, then `Close`
on that handle, and `Close` occurs exactly once; if it fails, no
`Readdirnames` and no `Close` call is made. -/
theorem Readdirnames_releases_handle {σ F : Type} (O_RDONLY : Int) (filesystem : FS σ F)
    (dir : String) (flags : Int) (s : σ) :
    ((Readdirnames O_RDONLY filesystem.traced dir flags (s, [])).2.2.countP
        FSCall.isOpenFile = 1)
      ∧ (∀ (f : F) (s1 : σ),
          filesystem.OpenFile dir (Int.lor O_RDONLY flags) 0 s = ((f, none), s1) →
          (Readdirnames O_RDONLY filesystem.traced dir flags (s, [])).2.2
              = [.OpenFile dir (Int.lor O_RDONLY flags) 0, .Readdirnames f (-1), .Close f]
            ∧ (Readdirnames O_RDONLY filesystem.traced dir flags (s, [])).2.2.countP
                FSCall.isClose = 1)
      ∧ (∀ (f : F) (e : GoError) (s1 : σ),
          filesystem.OpenFile dir (Int.lor O_RDONLY flags) 0 s = ((f, some e), s1) →
          (Readdirnames O_RDONLY filesystem.traced dir flags (s, [])).2.2
              = [.OpenFile dir (Int.lor O_RDONLY flags) 0]
            ∧ (Readdirnames O_RDONLY filesystem.traced dir flags (s, [])).2.2.countP
                FSCall.isReaddirnames = 0
            ∧ (Readdirnames O_RDONLY filesystem.traced dir flags (s, [])).2.2.countP
                FSCall.isClose = 0) := by
  rw [Readdirnames_log]
  refine ⟨?_, ?_, ?_⟩
  · rcases ho : filesystem.OpenFile dir (Int.lor O_RDONLY flags) 0 s with ⟨⟨f, _ | e⟩, s1⟩ <;>
      simp [FSCall.isOpenFile, List.countP_cons]
  · intro f s1 ho
    simp [ho, FSCall.isClose, List.countP_cons]
  · intro f e s1 ho
    simp [ho, FSCall.isClose, FSCall.isReaddirnames, List.countP_cons]

/-- C6: the only `OpenFile` call of a run receives the path `dir` as given, the
flag value `O_RDONLY|flags` and permission bits 0; a bit is set in that flag
value exactly when it is set in `O_RDONLY` or in `flags`. -/
theorem Readdirnames_open_arguments {σ F : Type} (O_RDONLY : Int) (filesystem : FS σ F)
    (dir : String) (flags : Int) (s : σ) :
    ((Readdirnames O_RDONLY filesystem.traced dir flags (s, [])).2.2.filter FSCall.isOpenFile
        = [.OpenFile dir (Int.lor O_RDONLY flags) 0])
      ∧ ∀ k : Nat, (Int.lor O_RDONLY flags).testBit k = (O_RDONLY.testBit k || flags.testBit k) := by
  refine ⟨?_, fun k => Int.testBit_lor _ _ _⟩
  rw [Readdirnames_log]
  rcases ho : filesystem.OpenFile dir (Int.lor O_RDONLY flags) 0 s with ⟨⟨f, _ | e⟩, s1⟩ <;>
    simp [FSCall.isOpenFile]

/-- C10: `Readdirnames` returns either a nil error, or the nil slice with a
non-nil error. When the read on the handle returns names together with an
error, or returns names and `Close` then fails, the returned slice is nil. -/
theorem Readdirnames_no_entries_with_error {σ F : Type} (O_RDONLY : Int) (filesystem : FS σ F)
    (dir : String) (flags : Int) (s : σ) :
    ((Readdirnames O_RDONLY filesystem dir flags s).1.2 = none
        ∨ ((Readdirnames O_RDONLY filesystem dir flags s).1.1 = none
            ∧ (Readdirnames O_RDONLY filesystem dir flags s).1.2 ≠ none))
      ∧ (∀ (f : F) (s1 : σ) (names : List String) (r : GoError) (s2 : σ),
          filesystem.OpenFile dir (Int.lor O_RDONLY flags) 0 s = ((f, none), s1) →
          filesystem.Readdirnames f (-1) s1 = ((some names, some r), s2) →
          (Readdirnames O_RDONLY filesystem dir flags s).1.1 = none
            ∧ (Readdirnames O_RDONLY filesystem dir flags s).1.2 ≠ none)
      ∧ (∀ (f : F) (s1 : σ) (names : List String) (s2 : σ) (c : GoError) (s3 : σ),
          filesystem.OpenFile dir (Int.lor O_RDONLY flags) 0 s = ((f, none), s1) →
          filesystem.Readdirnames f (-1) s1 = ((some names, none), s2) →
          filesystem.Close f s2 = (some c, s3) →
          (Readdirnames O_RDONLY filesystem dir flags s).1.1 = none
            ∧ (Readdirnames O_RDONLY filesystem dir flags s).1.2 ≠ none) := by
  refine ⟨?_, ?_, ?_⟩
  · simp only [Readdirnames]
    rcases ho : filesystem.OpenFile dir (Int.lor O_RDONLY flags) 0 s with ⟨⟨f, _ | e⟩, s1⟩
    · rcases hr : filesystem.Readdirnames f (-1) s1 with ⟨⟨ents, _ | r⟩, s2⟩
      · rcases hc : filesystem.Close f s2 with ⟨_ | c, s3⟩ <;> simp [hr, hc]
      · simp [hr]
    · simp
  · intro f s1 names r s2 ho hr
    simp [Readdirnames, ho, hr]
  · intro f s1 names s2 c s3 ho hr hc
    simp [Readdirnames, ho, hr, hc]

/-- C1 at a concrete input: the open is refused with "permission denied". -/
theorem Readdirnames_open_failure_witness :
    ∃ err : GoError,
      (Readdirnames 0 (scriptedFS openFails) "/data" 0 0).1 = (none, some err)
      ∧ err.Error = "openfile for readdirnames failed: " ++ "permission denied"
      ∧ err.Unwrap = some (.errorString "permission denied")
      ∧ ∀ (dir1 : String) (r : GoError),
          (Errorf "readdirnames %v failed: %w" [.string dir1, .error r]).Error
              = "readdirnames " ++ (dir1 ++ (" failed: " ++ r.Error))
            ∧ err.Error ≠ (Errorf "readdirnames %v failed: %w" [.string dir1, .error r]).Error :=
  Readdirnames_open_failure 0 (scriptedFS openFails) "/data" 0 0 0
    (.errorString "permission denied") 0 rfl

/-- C2 at a concrete input: the read fails, with a `Close` that fails and one that succeeds. -/
theorem Readdirnames_read_failure_witness :
    ∃ err : GoError,
      (Readdirnames 0 { scriptedFS readFails with Close := fun _ s => (none, s) } "/data" 0 0).1
          = (none, some err)
      ∧ (Readdirnames 0 (scriptedFS readFails) "/data" 0 0).1 = (none, some err)
      ∧ err.Error = "readdirnames " ++ "/data" ++ " failed: " ++ "input/output error"
      ∧ err.Unwrap = some (.errorString "input/output error") :=
  Readdirnames_read_failure 0 (scriptedFS readFails) "/data" 0 0 3 1 (some ["a"])
    (.errorString "input/output error") 1 (fun _ s => (none, s)) rfl rfl

/-- C3 at a concrete input: three names are read and the close fails. -/
theorem Readdirnames_close_failure_witness :
    (Readdirnames 0 (scriptedFS closeFails) "/data" 0 0).1
      = (none, some (.errorString "bad file descriptor")) :=
  Readdirnames_close_failure 0 (scriptedFS closeFails) "/data" 0 0 3 1 (some ["a", "b", "c"]) 1
    (.errorString "bad file descriptor") 0 rfl rfl rfl

/-- C4 at a concrete input: a handle listing `a`, `b`, `c` yields those three names. -/
theorem Readdirnames_success_witness :
    (Readdirnames 0 (scriptedFS allSucceed) "/data" 0 0).1 = (some ["a", "b", "c"], none)
      ∧ ((Readdirnames 0 (scriptedFS allSucceed).traced "/data" 0 (0, [])).2.2.filter
          FSCall.isReaddirnames) = [.Readdirnames 3 (-1)] :=
  Readdirnames_success 0 (scriptedFS allSucceed) "/data" 0 0 3 1 (some ["a", "b", "c"]) 1 0
    rfl rfl rfl

/-- C5 at concrete inputs: one run whose read fails, one whose open fails. -/
theorem Readdirnames_releases_handle_witness :
    ((Readdirnames 0 (scriptedFS readFails).traced "/data" 0 (0, [])).2.2
        = [.OpenFile "/data" 0 0, .Readdirnames 3 (-1), .Close 3]
      ∧ (Readdirnames 0 (scriptedFS readFails).traced "/data" 0 (0, [])).2.2.countP
          FSCall.isClose = 1)
    ∧ ((Readdirnames 0 (scriptedFS openFails).traced "/data" 0 (0, [])).2.2
        = [.OpenFile "/data" 0 0]
      ∧ (Readdirnames 0 (scriptedFS openFails).traced "/data" 0 (0, [])).2.2.countP
          FSCall.isReaddirnames = 0
      ∧ (Readdirnames 0 (scriptedFS openFails).traced "/data" 0 (0, [])).2.2.countP
          FSCall.isClose = 0) :=
  ⟨(Readdirnames_releases_handle 0 (scriptedFS readFails) "/data" 0 0).2.1 3 1 rfl,
   (Readdirnames_releases_handle 0 (scriptedFS openFails) "/data" 0 0).2.2 0
     (.errorString "permission denied") 0 rfl⟩

/-- C10 at concrete inputs: names with a read error, and names with a close error. -/
theorem Readdirnames_no_entries_with_error_witness :
    ((Readdirnames 0 (scriptedFS readFails) "/data" 0 0).1.1 = none
      ∧ (Readdirnames 0 (scriptedFS readFails) "/data" 0 0).1.2 ≠ none)
    ∧ ((Readdirnames 0 (scriptedFS closeFails) "/data" 0 0).1.1 = none
      ∧ (Readdirnames 0 (scriptedFS closeFails) "/data" 0 0).1.2 ≠ none) :=
  ⟨(Readdirnames_no_entries_with_error 0 (scriptedFS readFails) "/data" 0 0).2.1 3 1 ["a"]
     (.errorString "input/output error") 1 rfl rfl,
   (Readdirnames_no_entries_with_error 0 (scriptedFS closeFails) "/data" 0 0).2.2 3 1
     ["a", "b", "c"] 1 (.errorString "bad file descriptor") 0 rfl rfl rfl⟩

/-! ## The facade: the claims -/

/-- C7, the claim as written, fails: `Symlink` hands `oldname` to
`os.Symlink` as given, not normalized. With a normalization that prefixes "/",
`Symlink "target" "link"` calls `os.Symlink "target" "/link"`, not
`os.Symlink "/target" "/link"`. -/
theorem Symlink_oldname_not_normalized :
    (Symlink quietOS.traced rootedPath "target" "link" ((), [])).2.2
        = [OSCall.Symlink "target" "/link"]
      ∧ (Symlink quietOS.traced rootedPath "target" "link" ((), [])).2.2
        ≠ [OSCall.Symlink (rootedPath "target") (rootedPath "link")] := by
  constructor
  · rfl
  · decide

/-- C7, amended: each of `Mkdir`, `MkdirAll`, `Readlink`, `Remove`,
`RemoveAll`, `Rename`, `Link`, `Lstat`, `Open`, `OpenFile` and
`ResetPermissions` hands `fixpath` of every path argument to its `os`
primitive, and `Symlink` hands `fixpath newname` for the link path and
`oldname`, the link target, as given. -/
theorem facade_normalizes_paths {σ FileInfo F : Type} (os : OS σ FileInfo F)
    (fixpath : String → String) (s : σ) (log : List OSCall) :
    (∀ (name : String) (perm : FileMode),
        (Mkdir os.traced fixpath name perm (s, log)).2.2 = log ++ [.Mkdir (fixpath name) perm])
      ∧ (∀ (path : String) (perm : FileMode),
        (MkdirAll os.traced fixpath path perm (s, log)).2.2
          = log ++ [.MkdirAll (fixpath path) perm])
      ∧ (∀ name : String,
        (Readlink os.traced fixpath name (s, log)).2.2 = log ++ [.Readlink (fixpath name)])
      ∧ (∀ name : String,
        (Remove os.traced fixpath name (s, log)).2.2 = log ++ [.Remove (fixpath name)])
      ∧ (∀ path : String,
        (RemoveAll os.traced fixpath path (s, log)).2.2 = log ++ [.RemoveAll (fixpath path)])
      ∧ (∀ oldpath newpath : String,
        (Rename os.traced fixpath oldpath newpath (s, log)).2.2
          = log ++ [.Rename (fixpath oldpath) (fixpath newpath)])
      ∧ (∀ oldname newname : String,
        (Symlink os.traced fixpath oldname newname (s, log)).2.2
          = log ++ [.Symlink oldname (fixpath newname)])
      ∧ (∀ oldname newname : String,
        (Link os.traced fixpath oldname newname (s, log)).2.2
          = log ++ [.Link (fixpath oldname) (fixpath newname)])
      ∧ (∀ name : String,
        (Lstat os.traced fixpath name (s, log)).2.2 = log ++ [.Lstat (fixpath name)])
      ∧ (∀ name : String,
        (Open os.traced fixpath name (s, log)).2.2 = log ++ [.Open (fixpath name)])
      ∧ (∀ (name : String) (flag : Int) (perm : FileMode),
        (OpenFile os.traced fixpath name flag perm (s, log)).2.2
          = log ++ [.OpenFile (fixpath name) flag perm])
      ∧ (∀ path : String,
        (ResetPermissions os.traced fixpath path (s, log)).2.2
          = log ++ [.Chmod (fixpath path) 0o600]) := by
  refine ⟨?_, ?_, ?_, ?_, ?_, ?_, ?_, ?_, ?_, ?_, ?_, ?_⟩
  · intro name perm; rfl
  · intro path perm; rfl
  · intro name; rfl
  · intro name; rfl
  · intro path; rfl
  · intro oldpath newpath; rfl
  · intro oldname newname; rfl
  · intro oldname newname; rfl
  · intro name; rfl
  · intro name; rfl
  · intro name flag perm; rfl
  · intro path
    simp only [ResetPermissions, OS.traced, logged]
    rcases hc : os.Chmod (fixpath path) 384 s with ⟨_ | e, s1⟩ <;> simp [hc]

/-- C8: `ResetPermissions` makes exactly one call, `os.Chmod` on
`fixpath path` with mode 0600 (decimal 384, bits 7 and 8 only: owner write and
owner read), whatever the path and the world state; its result is that of the
`Chmod` call, so it is nil exactly when `Chmod` returns nil and is the error of
`Chmod` otherwise. -/
theorem ResetPermissions_fixed_mode {σ FileInfo F : Type} (os : OS σ FileInfo F)
    (fixpath : String → String) (path : String) (s : σ) :
    (ResetPermissions os.traced fixpath path (s, [])).2.2 = [.Chmod (fixpath path) 384]
      ∧ ResetPermissions os fixpath path s = os.Chmod (fixpath path) 384 s
      ∧ ((ResetPermissions os fixpath path s).1 = none
          ↔ (os.Chmod (fixpath path) 384 s).1 = none)
      ∧ (∀ e : GoError, (os.Chmod (fixpath path) 384 s).1 = some e →
          (ResetPermissions os fixpath path s).1 = some e)
      ∧ (384 : FileMode) = 0o600
      ∧ ∀ k : Nat, Nat.testBit 384 k = decide (k = 7 ∨ k = 8) := by
  have hres : ResetPermissions os fixpath path s = os.Chmod (fixpath path) 384 s := by
    simp only [ResetPermissions]
    rcases hc : os.Chmod (fixpath path) 384 s with ⟨_ | e, s1⟩ <;> rfl
  refine ⟨?_, hres, by rw [hres], fun e he => by rw [hres]; exact he, rfl, ?_⟩
  · simp only [ResetPermissions, OS.traced, logged]
    rcases hc : os.Chmod (fixpath path) 384 s with ⟨_ | e, s1⟩ <;> simp [hc]
  · intro k
    by_cases hk : k < 9
    · interval_cases k <;> decide
    · have h9 : 9 ≤ k := Nat.le_of_not_lt hk
      have hlt : 384 < 2 ^ k :=
        lt_of_lt_of_le (by decide : 384 < 2 ^ 9) (Nat.pow_le_pow_right (by decide) h9)
      rw [Nat.testBit_eq_false_of_lt hlt]
      symm
      simp only [decide_eq_false_iff_not]
      omega

/-- C9: each of `Mkdir`, `MkdirAll`, `Readlink`, `Remove`, `RemoveAll`,
`Rename`, `Link`, `Lstat`, `Open` and `OpenFile` returns the result (value,
error and world state) of the `os` primitive of the same name on the
normalized paths, with permission bits and flags passed through, and makes
that one call and no other; `IsAccessDenied` agrees with `os.IsPermission` on
every error value, nil included. -/
theorem facade_delegates {σ FileInfo F : Type} (os : OS σ FileInfo F)
    (fixpath : String → String) (s : σ) :
    (∀ (name : String) (perm : FileMode),
        Mkdir os fixpath name perm s = os.Mkdir (fixpath name) perm s
        ∧ Mkdir os.traced fixpath name perm (s, [])
          = ((os.Mkdir (fixpath name) perm s).1,
             (os.Mkdir (fixpath name) perm s).2, [.Mkdir (fixpath name) perm]))
      ∧ (∀ (path : String) (perm : FileMode),
        MkdirAll os fixpath path perm s = os.MkdirAll (fixpath path) perm s
        ∧ MkdirAll os.traced fixpath path perm (s, [])
          = ((os.MkdirAll (fixpath path) perm s).1,
             (os.MkdirAll (fixpath path) perm s).2, [.MkdirAll (fixpath path) perm]))
      ∧ (∀ name : String,
        Readlink os fixpath name s = os.Readlink (fixpath name) s
        ∧ Readlink os.traced fixpath name (s, [])
          = ((os.Readlink (fixpath name) s).1,
             (os.Readlink (fixpath name) s).2, [.Readlink (fixpath name)]))
      ∧ (∀ name : String,
        Remove os fixpath name s = os.Remove (fixpath name) s
        ∧ Remove os.traced fixpath name (s, [])
          = ((os.Remove (fixpath name) s).1,
             (os.Remove (fixpath name) s).2, [.Remove (fixpath name)]))
      ∧ (∀ path : String,
        RemoveAll os fixpath path s = os.RemoveAll (fixpath path) s
        ∧ RemoveAll os.traced fixpath path (s, [])
          = ((os.RemoveAll (fixpath path) s).1,
             (os.RemoveAll (fixpath path) s).2, [.RemoveAll (fixpath path)]))
      ∧ (∀ oldpath newpath : String,
        Rename os fixpath oldpath newpath s = os.Rename (fixpath oldpath) (fixpath newpath) s
        ∧ Rename os.traced fixpath oldpath newpath (s, [])
          = ((os.Rename (fixpath oldpath) (fixpath newpath) s).1,
             (os.Rename (fixpath oldpath) (fixpath newpath) s).2,
             [.Rename (fixpath oldpath) (fixpath newpath)]))
      ∧ (∀ oldname newname : String,
        Link os fixpath oldname newname s = os.Link (fixpath oldname) (fixpath newname) s
        ∧ Link os.traced fixpath oldname newname (s, [])
          = ((os.Link (fixpath oldname) (fixpath newname) s).1,
             (os.Link (fixpath oldname) (fixpath newname) s).2,
             [.Link (fixpath oldname) (fixpath newname)]))
      ∧ (∀ name : String,
        Lstat os fixpath name s = os.Lstat (fixpath name) s
        ∧ Lstat os.traced fixpath name (s, [])
          = ((os.Lstat (fixpath name) s).1,
             (os.Lstat (fixpath name) s).2, [.Lstat (fixpath name)]))
      ∧ (∀ name : String,
        Open os fixpath name s = os.Open (fixpath name) s
        ∧ Open os.traced fixpath name (s, [])
          = ((os.Open (fixpath name) s).1,
             (os.Open (fixpath name) s).2, [.Open (fixpath name)]))
      ∧ (∀ (name : String) (flag : Int) (perm : FileMode),
        OpenFile os fixpath name flag perm s = os.OpenFile (fixpath name) flag perm s
        ∧ OpenFile os.traced fixpath name flag perm (s, [])
          = ((os.OpenFile (fixpath name) flag perm s).1,
             (os.OpenFile (fixpath name) flag perm s).2, [.OpenFile (fixpath name) flag perm]))
      ∧ (∀ err : Option GoError, IsAccessDenied os err = os.IsPermission err) := by
  refine ⟨?_, ?_, ?_, ?_, ?_, ?_, ?_, ?_, ?_, ?_, ?_⟩
  · intro name perm; exact ⟨rfl, rfl⟩
  · intro path perm; exact ⟨rfl, rfl⟩
  · intro name; exact ⟨rfl, rfl⟩
  · intro name; exact ⟨rfl, rfl⟩
  · intro path; exact ⟨rfl, rfl⟩
  · intro oldpath newpath; exact ⟨rfl, rfl⟩
  · intro oldname newname; exact ⟨rfl, rfl⟩
  · intro name; exact ⟨rfl, rfl⟩
  · intro name; exact ⟨rfl, rfl⟩
  · intro name flag perm; exact ⟨rfl, rfl⟩
  · intro err; rfl

/-- C8 at a concrete input: a refused `Chmod` is the result of
`ResetPermissions`. -/
theorem ResetPermissions_fixed_mode_witness :
    (ResetPermissions refusingOS rootedPath "key" ()).1
      = some (.errorString "operation not permitted") :=
  (ResetPermissions_fixed_mode refusingOS rootedPath "key" ()).2.2.2.1
    (.errorString "operation not permitted") rfl

end Restic
